import Mathlib

/-!
Verification of the `ember_mug` device state synchronization engine.

Shallow embedding of the Python sources `src/ember_mug/consts.py`,
`src/ember_mug/data.py`, `src/ember_mug/utils.py` and `src/ember_mug/mug.py`.
Byte strings are modelled as `List Nat` (each element < 256 where relevant),
Python floats (`time()` values, temperatures) as exact rationals `ℚ`,
Python ints as `Int`/`Nat`, Python sets as duplicate-free `List`s where the
observable behaviour is membership, and `dict`s as association lists.
Transport (Bleak) calls are modelled by explicit `Except`-valued results and
call counters; a raised exception is an `Except.error`.
-/

deriving instance DecidableEq for Except

namespace EmberMugSpec

/-- `DeviceType` enum from `consts.py`. -/
inductive DeviceType where
  | CUP
  | MUG
  | TRAVEL_MUG
  | TUMBLER
deriving DecidableEq, Repr

/-- The `.value` string of each `DeviceType` member (`consts.py`). -/
def DeviceType.value : DeviceType → String
  | .CUP => "cup"
  | .MUG => "mug"
  | .TRAVEL_MUG => "travel_mug"
  | .TUMBLER => "tumbler"

/-- `DeviceModel` enum from `consts.py`. -/
inductive DeviceModel where
  | CUP_6_OZ
  | MUG_1_10_OZ
  | MUG_1_14_OZ
  | MUG_2_10_OZ
  | MUG_2_14_OZ
  | TRAVEL_MUG_12_OZ
  | TUMBLER_16_OZ
  | UNKNOWN_DEVICE
deriving DecidableEq, Repr

/-- `DeviceColour` enum from `consts.py`. -/
inductive DeviceColour where
  | SAGE_GREEN
  | SANDSTONE
  | BLACK
  | WHITE
  | GREY
  | BLUE
  | RED
  | COPPER
  | GOLD
  | STAINLESS_STEEL
  | ROSE_GOLD
deriving DecidableEq, Repr

/-- `TemperatureUnit` enum from `consts.py`. -/
inductive TemperatureUnit where
  | CELSIUS
  | FAHRENHEIT
deriving DecidableEq, Repr

/-- `MIN_MAX_TEMPS` from `consts.py`: allowed target-temperature range per unit. -/
def MIN_MAX_TEMPS : TemperatureUnit → ℚ × ℚ
  | .CELSIUS => (49, 63)
  | .FAHRENHEIT => (120, 145)

/-- `PushEvent` codes from `consts.py` (as raw integers, as read from `data[0]`). -/
def PushEvent.BATTERY_CHANGED : Nat := 1
def PushEvent.CHARGER_CONNECTED : Nat := 2
def PushEvent.CHARGER_DISCONNECTED : Nat := 3
def PushEvent.TARGET_TEMPERATURE_CHANGED : Nat := 4
def PushEvent.DRINK_TEMPERATURE_CHANGED : Nat := 5
def PushEvent.AUTH_INFO_NOT_FOUND : Nat := 6
def PushEvent.LIQUID_LEVEL_CHANGED : Nat := 7
def PushEvent.LIQUID_STATE_CHANGED : Nat := 8
def PushEvent.BATTERY_VOLTAGE_STATE_CHANGED : Nat := 9

/-- `PUSH_EVENT_BATTERY_IDS` from `consts.py`. -/
def PUSH_EVENT_BATTERY_IDS : List Nat :=
  [PushEvent.BATTERY_CHANGED, PushEvent.CHARGER_CONNECTED, PushEvent.CHARGER_DISCONNECTED]

/-- `INITIAL_ATTRS` from `consts.py`. -/
def INITIAL_ATTRS : List String := ["meta", "udsk", "dsk", "date_time_zone", "firmware"]

/-- `UPDATE_ATTRS` from `consts.py`. -/
def UPDATE_ATTRS : List String :=
  ["name", "led_colour", "current_temp", "target_temp", "temperature_unit",
   "battery", "liquid_level", "liquid_state"]

/-- `EXTRA_ATTRS` from `consts.py`. -/
def EXTRA_ATTRS : List String := ["battery_voltage", "date_time_zone", "udsk", "dsk"]

/-- `TRAVEL_MUG_SERVICE_UUIDS` from `consts.py`:
`str(MugCharacteristic.TRAVEL_MUG_SERVICE)` (id 13857 = 0x3621) and
`str(MugCharacteristic.TRAVEL_MUG_SERVICE_OTHER)` (id 8609 = 0x21a1), each
rendered through `UUID_TEMPLATE = "fc54{:0>4x}-236c-4c94-8fa9-944a3e5353fa"`. -/
def TRAVEL_MUG_SERVICE_UUIDS : List String :=
  ["fc543621-236c-4c94-8fa9-944a3e5353fa", "fc5421a1-236c-4c94-8fa9-944a3e5353fa"]

/-- `EMBER_BLE_SIG` from `consts.py`. -/
def EMBER_BLE_SIG : Nat := 0x03C1

/-! ## Codec helpers (`utils.py`) -/

/-- `bytes_to_little_int` from `utils.py`:
`int.from_bytes(data, byteorder="little", signed=False)`. -/
def bytes_to_little_int (data : List Nat) : Nat :=
  data.foldr (fun b acc => b + 256 * acc) 0

/-- Unsigned big-endian accumulation used by `bytes_to_big_int`. -/
def bytes_to_big_int_unsigned (data : List Nat) : Nat :=
  data.foldl (fun acc b => acc * 256 + b) 0

/-- `bytes_to_big_int` from `utils.py`:
`int.from_bytes(data, byteorder="big", signed=signed)`. -/
def bytes_to_big_int (data : List Nat) (signed : Bool) : Int :=
  let n := bytes_to_big_int_unsigned data
  if signed ∧ 2 ^ (8 * data.length - 1) ≤ n then
    (n : Int) - 2 ^ (8 * data.length)
  else
    (n : Int)

/-- `convert_temp_to_fahrenheit` from `utils.py`. -/
def convert_temp_to_fahrenheit (temp : ℚ) : ℚ := (temp * 9 / 5) + 32

/-- `convert_temp_to_celsius` from `utils.py`. -/
def convert_temp_to_celsius (temp : ℚ) : ℚ := (temp - 32) * 5 / 9

/-- `temp_from_bytes` from `utils.py`: little-endian unsigned int times `0.01`.
Python float arithmetic is modelled by exact rationals. -/
def temp_from_bytes (temp_bytes : List Nat) : ℚ :=
  (bytes_to_little_int temp_bytes : ℚ) * 0.01

/-- Python's built-in `round` to an integer: round half to even. -/
def pyRound (q : ℚ) : ℤ :=
  let fl := ⌊q⌋
  let frac := q - fl
  if frac < 1 / 2 then fl
  else if 1 / 2 < frac then fl + 1
  else if fl % 2 = 0 then fl else fl + 1

/-- Python's `int.to_bytes(2, "little")`: two little-endian bytes, or `none`
(an `OverflowError`) when the integer does not fit. -/
def to_bytes2_little (n : ℤ) : Option (List Nat) :=
  if 0 ≤ n ∧ n < 65536 then
    some [n.toNat % 256, n.toNat / 256 % 256]
  else
    none

/-! ## Capability resolver (`utils.py`) -/

/-- `get_colour_from_int` from `utils.py`. -/
def get_colour_from_int (colour_id : Int) : Option DeviceColour :=
  if colour_id ∈ ([-127, -63, 1, 14, 65] : List Int) then some .BLACK
  else if colour_id ∈ ([-126, -62, 2] : List Int) then some .WHITE
  else if colour_id ∈ ([8, 11, -56, -63, -120, -117, -53] : List Int) then some .RED
  else if colour_id ∈ ([-131, -125, -61, 3, 83] : List Int) then some .COPPER
  else if colour_id ∈ ([-124, -60] : List Int) then some .ROSE_GOLD
  else if colour_id ∈ ([-59, -123] : List Int) then some .STAINLESS_STEEL
  else if colour_id = -51 then some .SANDSTONE
  else if colour_id = -52 then some .SAGE_GREEN
  else if colour_id = -55 then some .GREY
  else if colour_id = -57 then some .BLUE
  else if colour_id = -122 then some .GOLD
  else none

/-- `get_model_from_single_int_and_services` from `utils.py`. -/
def get_model_from_single_int_and_services (model_id : Int) (service_uuids : List String) :
    Option DeviceModel :=
  if TRAVEL_MUG_SERVICE_UUIDS.any (fun u => u ∈ service_uuids) then some .TRAVEL_MUG_12_OZ
  else if model_id ∈ ([1, 2, 3] : List Int) then some .MUG_1_10_OZ
  else if model_id = 65 then some .MUG_1_14_OZ
  else if model_id ∈ ([-51, -59, -63, -61, -62] : List Int) then some .MUG_2_14_OZ
  else if model_id = -60 then some .CUP_6_OZ
  else if model_id ∈ ([-127, -126, -125, -124, -123, -122, -120, -117,
                       -57, -56, -55, -53, -52, 83, 131] : List Int) then some .MUG_2_10_OZ
  else none

/-- `get_model_from_id_and_gen` from `utils.py`. -/
def get_model_from_id_and_gen (model_id : Nat) (generation : Nat) : Option DeviceModel :=
  if model_id = 1 then some (if generation < 2 then .MUG_1_10_OZ else .MUG_2_10_OZ)
  else if model_id = 2 then some (if generation < 2 then .MUG_1_14_OZ else .MUG_2_14_OZ)
  else if model_id = 3 then some .TRAVEL_MUG_12_OZ
  else if model_id = 8 then some .CUP_6_OZ
  else if model_id = 9 then some .TUMBLER_16_OZ
  else none

/-- `guess_model_from_name` from `utils.py`; substring matching on the name. -/
def guess_model_from_name (name : Option String) : Option DeviceModel :=
  match name with
  | none => none
  | some n =>
    if n = "" then none
    else if String.containsSubstr n "Travel" then some .TRAVEL_MUG_12_OZ
    else if String.containsSubstr n "Cup" then some .CUP_6_OZ
    else some .UNKNOWN_DEVICE

/-- `ModelInfo` from `data.py` (its two stored fields; the rest are derived). -/
structure ModelInfo where
  model : Option DeviceModel
  colour : Option DeviceColour
deriving DecidableEq, Repr

/-- `AdvertisementData` as consumed by `get_model_info_from_advertiser_data`:
the manufacturer-data dict (vendor id keyed association list of payloads),
advertised service UUIDs and local name. -/
structure AdvertisementData where
  manufacturer_data : List (Nat × List Nat)
  service_uuids : List String
  local_name : Option String

/-- `dict.get(key, None)` on the manufacturer-data association list. -/
def dictGet (entries : List (Nat × List Nat)) (key : Nat) : Option (List Nat) :=
  (entries.find? (fun p => p.1 = key)).map Prod.snd

/-- `get_model_info_from_advertiser_data` from `utils.py`. -/
def get_model_info_from_advertiser_data (advertisement : AdvertisementData) : ModelInfo :=
  match dictGet advertisement.manufacturer_data EMBER_BLE_SIG with
  | some model_data =>
    if model_data.length < 4 then
      let model_id := bytes_to_big_int model_data true
      ModelInfo.mk
        (get_model_from_single_int_and_services model_id advertisement.service_uuids)
        (get_colour_from_int model_id)
    else
      let model_id := model_data.getD 1 0
      let generation := model_data.getD 2 0
      let colour_id := model_data.getD 3 0
      ModelInfo.mk
        (get_model_from_id_and_gen model_id generation)
        (get_colour_from_int (colour_id : Int))
  | none => ModelInfo.mk (guess_model_from_name advertisement.local_name) none

/-- `ModelInfo.device_type` from `data.py`. -/
def ModelInfo.device_type (info : ModelInfo) : DeviceType :=
  if info.model = some .TRAVEL_MUG_12_OZ then .TRAVEL_MUG
  else if info.model = some .TUMBLER_16_OZ then .TUMBLER
  else if info.model = some .CUP_6_OZ then .CUP
  else .MUG

/-- `ModelInfo.device_attributes` from `data.py`. Python set operations are
modelled on duplicate-free lists (the observable behaviour is membership). -/
def ModelInfo.device_attributes (info : ModelInfo) : List String :=
  let attributes := (EXTRA_ATTRS ++ INITIAL_ATTRS ++ UPDATE_ATTRS).dedup
  let unknown := info.model = none ∨ info.model = some .UNKNOWN_DEVICE
  let attributes :=
    if unknown ∨ info.device_type = .CUP ∨ info.device_type = .TUMBLER then
      attributes.filter (fun a => a ≠ "name")
    else if info.device_type = .TRAVEL_MUG then
      (attributes.filter (fun a => a ≠ "led_colour")) ++ ["volume_level"]
    else attributes
  if info.model ≠ some .TRAVEL_MUG_12_OZ then
    attributes.filter (fun a => a ≠ "battery_voltage")
  else attributes

/-! ## Colour and LED writes (`data.py`, `mug.py`) -/

/-- `Colour` NamedTuple from `data.py`; `brightness` defaults to 255. -/
structure Colour where
  red : Nat
  green : Nat
  blue : Nat
  brightness : Nat := 255
deriving DecidableEq, Repr

/-- `Colour.as_bytearray` from `data.py`: `bytearray(c for c in self)`,
i.e. all four components in tuple order. -/
def Colour.as_bytearray (c : Colour) : List Nat :=
  [c.red, c.green, c.blue, c.brightness]

/-- The payload `EmberMug.set_led_colour` writes to the LED characteristic
(`mug.py`): `colour.as_bytearray()`. -/
def set_led_colour_payload (colour : Colour) : List Nat :=
  colour.as_bytearray

/-! ## `MugData.update_info` (`data.py`)

The Python method iterates `kwargs.items()` and, for each `(attr, new_value)`
pair, compares `getattr(self, attr)` with `new_value` under `!=`; on a
difference it `setattr`s the slot and appends a `Change`. The slots are
modelled as a function `α → β` (the `getattr`/`setattr` view of the object),
and a `Change` as the tuple `(attr, old_value, new_value)`. -/

def update_info {α β : Type} [DecidableEq α] [DecidableEq β]
    (state : α → β) (pairs : List (α × β)) : (α → β) × List (α × β × β) :=
  match pairs with
  | [] => (state, [])
  | (attr, new_value) :: rest =>
    let old_value := state attr
    if old_value ≠ new_value then
      let state1 := fun a => if a = attr then new_value else state a
      let result := update_info state1 rest
      (result.1, (attr, old_value, new_value) :: result.2)
    else
      update_info state rest

/-! ## Base64 text transform (`utils.py`) -/

/-- The base64 alphabet used by Python's `base64.encodebytes`. -/
def base64Alphabet : List Char :=
  "ABCDEFGHIJKLMNOPQRSTUVWXYZabcdefghijklmnopqrstuvwxyz0123456789+/".toList

/-- Character for a 6-bit group. -/
def b64Char (i : Nat) : Char := base64Alphabet.getD i 'A'

/-- Standard base64 encoding of a byte list, with `=` padding
(Python `base64.encodebytes` without its line breaks). -/
def b64Encode : List Nat → List Char
  | [] => []
  | [a] => [b64Char (a / 4), b64Char (a % 4 * 16), '=', '=']
  | [a, b] => [b64Char (a / 4), b64Char (a % 4 * 16 + b / 16), b64Char (b % 16 * 4), '=']
  | a :: b :: c :: rest =>
    b64Char (a / 4) :: b64Char (a % 4 * 16 + b / 16) :: b64Char (b % 16 * 4 + c / 64) ::
      b64Char (c % 64) :: b64Encode rest

/-- `decode_byte_string` from `utils.py`: empty bytes give `""`, otherwise
`base64.encodebytes(data).decode()` with all `\r`/`\n` removed — i.e. the
plain base64 text of the bytes. (`encodebytes` cannot raise on byte input,
so the `ValueError` fallback branch is dead.) -/
def decode_byte_string (data : List Nat) : String :=
  if data = [] then ""
  else String.mk (b64Encode data)

/-! ## Transport error handling (`mug.py`)

A transport read/write is modelled by its `Except`-valued outcome: a raised
`BleakError` is `Except.error`. -/

/-- `EmberMug.get_udsk` from `mug.py`: on a successful read, a 20-zero-byte
answer gives `None`, anything else is decoded; a `BleakError`/`ValueError`
is caught, logged, and `None` is returned. -/
def get_udsk (read_result : Except String (List Nat)) : Option String :=
  match read_result with
  | .ok data =>
    if data = List.replicate 20 0 then none
    else some (decode_byte_string data)
  | .error _ => none

/-- `EmberMug.get_dsk` from `mug.py`: decodes the read bytes; a `BleakError`
is caught, logged, and `""` is returned. -/
def get_dsk (read_result : Except String (List Nat)) : String :=
  match read_result with
  | .ok data => decode_byte_string data
  | .error _ => ""

/-- `EmberMug._write` from `mug.py`: the `except BleakError` clause logs and
re-`raise`s, so the outcome of the transport write propagates unchanged. -/
def write_gatt (write_result : Except String Unit) : Except String Unit :=
  match write_result with
  | .ok _ => .ok ()
  | .error e => .error e

/-! ## Capability-gated getters (`mug.py`) -/

/-- The `require_attribute` decorator from `mug.py`: when the attribute is
absent from `device_attributes`, it raises `NotImplementedError` naming the
device type before the wrapped coroutine (and hence any transport call) runs.
The transport is modelled by a call counter threaded through the wrapped
function. -/
def require_attribute {α : Type} (attr_name : String) (info : ModelInfo)
    (func : Nat → Except String α × Nat) (transport_calls : Nat) :
    Except String α × Nat :=
  if attr_name ∉ info.device_attributes then
    (.error ("The " ++ info.device_type.value ++ " does not have the " ++ attr_name
        ++ " attribute"),
     transport_calls)
  else
    func transport_calls

/-- `EmberMug.get_name` from `mug.py`: a `require_attribute("name")`-guarded
read of the `MUG_NAME` characteristic. The read is modelled as returning the
supplied bytes and counting one transport call; the utf-8 decode of the bytes
is modelled as the byte list itself. -/
def get_name (info : ModelInfo) (name_bytes : List Nat) (transport_calls : Nat) :
    Except String (List Nat) × Nat :=
  require_attribute "name" info (fun calls => (.ok name_bytes, calls + 1)) transport_calls

/-! ## Target temperature (`mug.py`) -/

/-- `EmberMug._convert_to_device_unit` from `mug.py`. -/
def convert_to_device_unit (use_metric : Bool) (temperature_unit : TemperatureUnit)
    (value : ℚ) : ℚ :=
  if use_metric = true ∧ temperature_unit ≠ TemperatureUnit.CELSIUS then
    convert_temp_to_fahrenheit value
  else if use_metric = false ∧ temperature_unit ≠ TemperatureUnit.FAHRENHEIT then
    convert_temp_to_celsius value
  else value

/-- The temperature wire encoding (`mug.py`, `set_target_temp`):
`round(target_temp / 0.01).to_bytes(2, "little")`. -/
def temp_to_bytes (temp : ℚ) : Option (List Nat) :=
  to_bytes2_little (pyRound (temp / 0.01))

/-- `EmberMug.set_target_temp` from `mug.py`. Returns `.error` for the raised
`ValueError` (before any conversion, encoding or transport write) and `.ok`
with the bytes written to the `TARGET_TEMPERATURE` characteristic otherwise;
an encoding overflow (`int.to_bytes` raising) is also an `.error`. -/
def set_target_temp (use_metric : Bool) (temperature_unit : TemperatureUnit)
    (target_temp : ℚ) : Except String (List Nat) :=
  let unit := if use_metric then TemperatureUnit.CELSIUS else TemperatureUnit.FAHRENHEIT
  let min_temp := (MIN_MAX_TEMPS unit).1
  let max_temp := (MIN_MAX_TEMPS unit).2
  if target_temp ≠ 0 ∧ ¬ (min_temp ≤ target_temp ∧ target_temp ≤ max_temp) then
    .error ("Temperature should be between " ++ toString min_temp ++ " and "
      ++ toString max_temp ++ " or 0.")
  else
    let device_temp := convert_to_device_unit use_metric temperature_unit target_temp
    match temp_to_bytes device_temp with
    | some target => .ok target
    | none => .error "OverflowError"

/-! ## Push-notification debouncing (`mug.py`) -/

/-- `BatteryInfo` from `data.py` (decoded form). -/
structure BatteryInfo where
  percent : ℚ
  on_charging_base : Bool
deriving DecidableEq, Repr

/-- The slice of `EmberMug` state touched by `_notify_callback`:
`_latest_events` (event code → wall-clock time of last processing),
`_queued_updates` (a set, modelled by a duplicate-free list) and
`data.battery`. -/
structure NotifyState where
  latest_events : Nat → Option ℚ
  queued_updates : List String
  battery : Option BatteryInfo

/-- Observable side effects of one `_notify_callback` invocation: which
attributes were added to `_queued_updates`, how many times `_fire_callbacks`
ran, and the optimistic battery value written, if any. -/
structure NotifyEffect where
  queued : List String
  callbacks_fired : Nat
  battery_set : Option BatteryInfo
deriving DecidableEq, Repr

/-- The no-op effect. -/
def NotifyEffect.none : NotifyEffect := ⟨[], 0, Option.none⟩

/-- The expression `self.data.battery.percent if self.data.battery else 0`
from `_notify_callback` (`mug.py`). -/
def battery_percent (st : NotifyState) : ℚ :=
  match st.battery with
  | some b => b.percent
  | Option.none => 0

/-- The event-code dispatch of `_notify_callback` (`mug.py`), after the
debounce check and the statistics-characteristic check. -/
def handle_event (st : NotifyState) (event_id : Nat) : NotifyState × NotifyEffect :=
  if event_id ∈ PUSH_EVENT_BATTERY_IDS then
    if event_id = PushEvent.CHARGER_CONNECTED ∨ event_id = PushEvent.CHARGER_DISCONNECTED then
      let new_battery : BatteryInfo :=
        { percent := battery_percent st
          on_charging_base := event_id == PushEvent.CHARGER_CONNECTED }
      ({ st with battery := some new_battery
                 queued_updates := st.queued_updates.insert "battery" },
       ⟨["battery"], 1, some new_battery⟩)
    else
      ({ st with queued_updates := st.queued_updates.insert "battery" },
       ⟨["battery"], 0, Option.none⟩)
  else if event_id = PushEvent.TARGET_TEMPERATURE_CHANGED then
    ({ st with queued_updates := st.queued_updates.insert "target_temp" },
     ⟨["target_temp"], 0, Option.none⟩)
  else if event_id = PushEvent.DRINK_TEMPERATURE_CHANGED then
    ({ st with queued_updates := st.queued_updates.insert "current_temp" },
     ⟨["current_temp"], 0, Option.none⟩)
  else if event_id = PushEvent.AUTH_INFO_NOT_FOUND then
    (st, NotifyEffect.none)
  else if event_id = PushEvent.LIQUID_LEVEL_CHANGED then
    ({ st with queued_updates := st.queued_updates.insert "liquid_level" },
     ⟨["liquid_level"], 0, Option.none⟩)
  else if event_id = PushEvent.LIQUID_STATE_CHANGED then
    ({ st with queued_updates := st.queued_updates.insert "liquid_state" },
     ⟨["liquid_state"], 0, Option.none⟩)
  else if event_id = PushEvent.BATTERY_VOLTAGE_STATE_CHANGED then
    ({ st with queued_updates := st.queued_updates.insert "battery_voltage" },
     ⟨["battery_voltage"], 0, Option.none⟩)
  else
    (st, NotifyEffect.none)

/-- The non-debounced path of `_notify_callback`: record the time for this
event code, bail out (after recording) for the statistics characteristic,
otherwise dispatch on the event code. -/
def notify_process (is_statistics : Bool) (event_id : Nat) (now : ℚ) (st : NotifyState) :
    NotifyState × NotifyEffect :=
  let st1 : NotifyState :=
    { st with latest_events := fun i => if i = event_id then some now else st.latest_events i }
  if is_statistics then (st1, NotifyEffect.none)
  else handle_event st1 event_id

/-- `EmberMug._notify_callback` from `mug.py`.  The guard
`if (last_time := self._latest_events.get(event_id)) and now - last_time < 5:`
ignores the event when a last time is recorded, is truthy (non-zero), and is
less than 5 seconds old. -/
def notify_callback (is_statistics : Bool) (event_id : Nat) (now : ℚ) (st : NotifyState) :
    NotifyState × NotifyEffect :=
  match st.latest_events event_id with
  | some last_time =>
    if last_time ≠ 0 ∧ now - last_time < 5 then (st, NotifyEffect.none)
    else notify_process is_statistics event_id now st
  | Option.none => notify_process is_statistics event_id now st

/-! ## Callback registration (`mug.py`)

`EmberMug._callbacks` is a dict from callback to its unregister closure.
Callbacks are modelled by an abstract key type `κ` and unregister closures by
the `Nat` handle identifying the closure object created at registration time
(`next_handle` plays the role of object identity: re-registration returns the
stored handle, not a fresh one). -/

structure CallbackRegistry (κ : Type) where
  entries : List (κ × Nat)
  next_handle : Nat
deriving DecidableEq, Repr

/-- `dict.get` on the callback dict. -/
def CallbackRegistry.lookupHandle {κ : Type} [DecidableEq κ]
    (reg : CallbackRegistry κ) (cb : κ) : Option Nat :=
  (reg.entries.find? (fun p => p.1 = cb)).map Prod.snd

/-- `EmberMug.register_callback` from `mug.py`: if the callback is already
registered, return the existing unregister closure; otherwise create a fresh
closure, store it, and return it. -/
def register_callback {κ : Type} [DecidableEq κ] (reg : CallbackRegistry κ) (cb : κ) :
    CallbackRegistry κ × Nat :=
  match reg.lookupHandle cb with
  | some existing_unregister_callback => (reg, existing_unregister_callback)
  | Option.none =>
    ({ entries := reg.entries ++ [(cb, reg.next_handle)], next_handle := reg.next_handle + 1 },
     reg.next_handle)

/-- Invoking the unregister closure created for callback `cb`
(`unregister_callback` inside `register_callback` in `mug.py`):
`if callback in self._callbacks: del self._callbacks[callback]`. -/
def run_unregister {κ : Type} [DecidableEq κ] (reg : CallbackRegistry κ) (cb : κ) :
    CallbackRegistry κ :=
  if (reg.entries.find? (fun p => p.1 = cb)).isSome then
    { reg with entries := reg.entries.filter (fun p => p.1 ≠ cb) }
  else reg

/-- `EmberMug._fire_callbacks` from `mug.py` iterates the dict keys in
insertion order; the callbacks invoked are exactly the registered keys. -/
def fire_callbacks {κ : Type} (reg : CallbackRegistry κ) : List κ :=
  reg.entries.map Prod.fst

/-! ## Queued refresh (`mug.py`) -/

/-- The slice of `EmberMug` state touched by `update_queued_attributes`:
the pending-update queue and the `MugData` slots (modelled as a map from
attribute name to value, see `update_info`). -/
structure EngineState (V : Type) where
  queued_updates : List String
  data : String → V

/-- Observable side effects of one `update_queued_attributes` call: whether
`_ensure_connection` ran, which attributes were read from the transport, and
whether `_fire_callbacks` ran. -/
structure UpdateEffects where
  ensured_connection : Bool
  reads : List String
  callbacks_fired : Bool
deriving DecidableEq, Repr

/-- `EmberMug.update_queued_attributes` from `mug.py`: with an empty queue it
returns `[]` immediately (before `_ensure_connection`); otherwise it snapshots
and clears the queue, connects, reads each queued attribute (`read_value` is
the transport oracle), applies `MugData.update_info`, and fires callbacks when
the change list is non-empty. -/
def update_queued_attributes {V : Type} [DecidableEq V] (read_value : String → V)
    (st : EngineState V) : List (String × V × V) × EngineState V × UpdateEffects :=
  if st.queued_updates = [] then
    ([], st, ⟨false, [], false⟩)
  else
    let queued_updates := st.queued_updates
    let cleared : EngineState V := { st with queued_updates := [] }
    let pairs := queued_updates.map (fun attr => (attr, read_value attr))
    let result := update_info cleared.data pairs
    (result.2, { cleared with data := result.1 },
     ⟨true, queued_updates, !result.2.isEmpty⟩)

/-! ## Theorems -/

/-- Python `round` is the identity on integers. -/
theorem pyRound_intCast (n : ℤ) : pyRound (n : ℚ) = n := by
  unfold pyRound
  norm_num

/-- Python `round` is the identity on naturals. -/
theorem pyRound_natCast (n : ℕ) : pyRound (n : ℚ) = (n : ℤ) := by
  have := pyRound_intCast (n : ℤ)
  simpa using this

/-- Claim C1, counterexample: the claim says the brightness byte on the wire
is always 255, but `set_led_colour` writes `colour.as_bytearray()`, which for
the caller-supplied `Colour(1, 2, 3, 100)` ends in byte 100, not 255. -/
theorem set_led_colour_payload_counterexample :
    set_led_colour_payload ⟨1, 2, 3, 100⟩ = [1, 2, 3, 100] ∧
    set_led_colour_payload ⟨1, 2, 3, 100⟩ ≠ [1, 2, 3, 255] := by
  exact ⟨rfl, by decide⟩

/-- Claim C1, amended: for every Colour supplied to `set_led_colour`, the four
bytes written to the LED characteristic are exactly (red, green, blue,
brightness) of the caller-supplied Colour; the brightness byte is 255 only via
the `Colour` default when the caller omits it, never by forcing. -/
theorem set_led_colour_payload_is_caller_bytes (c : Colour) :
    set_led_colour_payload c = [c.red, c.green, c.blue, c.brightness] ∧
    ({ red := c.red, green := c.green, blue := c.blue } : Colour).brightness = 255 :=
  ⟨rfl, rfl⟩

/-- `update_info` leaves slots it was not asked about untouched and records
no change for them. -/
theorem update_info_not_mem {α β : Type} [DecidableEq α] [DecidableEq β]
    (state : α → β) (pairs : List (α × β)) (attr : α)
    (h : attr ∉ pairs.map Prod.fst) :
    (update_info state pairs).1 attr = state attr ∧
    (update_info state pairs).2.filter (fun c => c.1 = attr) = [] := by
  induction pairs generalizing state with
  | nil => simp [update_info]
  | cons p rest ih =>
    obtain ⟨a, w⟩ := p
    simp only [List.map_cons, List.mem_cons, not_or] at h
    obtain ⟨hne, hrest⟩ := h
    rw [update_info]
    by_cases hv : state a ≠ w
    · rw [if_pos hv]
      have ihr := ih (fun x => if x = a then w else state x) hrest
      refine ⟨?_, ?_⟩
      · rw [ihr.1]
        simp [hne]
      · simp only [List.filter_cons]
        have hnot : ¬ ((a, state a, w).1 = attr) := by
          simp only []
          exact fun hh => hne hh.symm
        rw [if_neg (by simpa using hnot)]
        exact ihr.2
    · rw [if_neg hv]
      exact ih state hrest

/-- Claim C2: for a current state and keyword pairs with distinct attribute
keys (as Python kwargs are), `update_info` ends with the slot of each
submitted pair holding the candidate value; a pair whose candidate differs
from the current slot value contributes exactly one Change record
(attr, old, new), and a pair whose candidate equals the current value
contributes none and leaves the slot unchanged. -/
theorem update_info_change_iff {α β : Type} [DecidableEq α] [DecidableEq β]
    (state : α → β) (pairs : List (α × β)) (attr : α) (v : β)
    (hnd : (pairs.map Prod.fst).Nodup) (hmem : (attr, v) ∈ pairs) :
    (update_info state pairs).1 attr = v ∧
    (state attr ≠ v →
      (update_info state pairs).2.filter (fun c => c.1 = attr) = [(attr, state attr, v)]) ∧
    (state attr = v →
      (update_info state pairs).2.filter (fun c => c.1 = attr) = []) := by
  induction pairs generalizing state with
  | nil => cases hmem
  | cons p rest ih =>
    obtain ⟨a, w⟩ := p
    simp only [List.map_cons, List.nodup_cons] at hnd
    obtain ⟨hna, hndr⟩ := hnd
    rcases List.mem_cons.mp hmem with heq | hmemr
    · rcases Prod.mk.inj heq with ⟨rfl, rfl⟩
      rw [update_info]
      by_cases hv : state attr ≠ v
      · rw [if_pos hv]
        have hnm := update_info_not_mem (fun x => if x = attr then v else state x) rest attr hna
        refine ⟨?_, ?_, ?_⟩
        · rw [hnm.1]
          simp
        · intro _
          simp only [List.filter_cons]
          rw [if_pos (by simp)]
          rw [hnm.2]
        · intro hcon
          exact absurd hcon hv
      · rw [if_neg hv]
        push_neg at hv
        have hnm := update_info_not_mem state rest attr hna
        refine ⟨by rw [hnm.1, hv], ?_, ?_⟩
        · intro hcon
          exact absurd hv hcon
        · intro _
          exact hnm.2
    · have hattr : attr ∈ rest.map Prod.fst := by
        exact List.mem_map.mpr ⟨(attr, v), hmemr, rfl⟩
      have hne : attr ≠ a := fun hh => hna (hh ▸ hattr)
      rw [update_info]
      by_cases hv : state a ≠ w
      · rw [if_pos hv]
        have ihr := ih (fun x => if x = a then w else state x) hndr hmemr
        have hst : (fun x => if x = a then w else state x) attr = state attr := by
          simp [hne]
        rw [hst] at ihr
        refine ⟨ihr.1, ?_, ?_⟩
        · intro hd
          simp only [List.filter_cons]
          rw [if_neg (by simp [Ne.symm hne])]
          exact ihr.2.1 hd
        · intro hd
          simp only [List.filter_cons]
          rw [if_neg (by simp [Ne.symm hne])]
          exact ihr.2.2 hd
      · rw [if_neg hv]
        exact ih state hndr hmemr

/-- Claim C2, witness: updating slots that all hold 0 with pairs
`[(0, 1), (1, 0)]` mutates slot 0 to 1 and records exactly one Change for
it. -/
theorem update_info_change_iff_witness :
    (update_info (fun _ : ℕ => (0 : ℕ)) [(0, 1), (1, 0)]).1 0 = 1 ∧
    (update_info (fun _ : ℕ => (0 : ℕ)) [(0, 1), (1, 0)]).2.filter (fun c => c.1 = 0) =
      [(0, 0, 1)] := by
  have h := update_info_change_iff (fun _ : ℕ => (0 : ℕ)) [(0, 1), (1, 0)] 0 1
    (by decide) (by decide)
  exact ⟨h.1, h.2.1 (by decide)⟩

/-- The event dispatch never touches the `_latest_events` table. -/
theorem handle_event_latest (st : NotifyState) (e : Nat) :
    (handle_event st e).1.latest_events = st.latest_events := by
  unfold handle_event
  split_ifs <;> rfl

/-- The event dispatch preserves the last known battery percentage. -/
theorem handle_event_percent (st : NotifyState) (e : Nat) :
    battery_percent (handle_event st e).1 = battery_percent st := by
  unfold handle_event
  split_ifs <;> simp [battery_percent]

/-- The effect of the event dispatch depends only on the event code and the
last known battery percentage. -/
theorem handle_event_effect_congr (st st2 : NotifyState) (e : Nat)
    (h : battery_percent st = battery_percent st2) :
    (handle_event st e).2 = (handle_event st2 e).2 := by
  unfold handle_event
  split_ifs <;> simp [h]

/-- A processed notification records its arrival time for its event code. -/
theorem notify_process_latest (is_statistics : Bool) (e : Nat) (now : ℚ) (st : NotifyState) :
    (notify_process is_statistics e now st).1.latest_events =
      fun i => if i = e then some now else st.latest_events i := by
  unfold notify_process
  split_ifs with hs
  · rfl
  · rw [handle_event_latest]

/-- Processing a notification preserves the last known battery percentage. -/
theorem notify_process_percent (is_statistics : Bool) (e : Nat) (now : ℚ) (st : NotifyState) :
    battery_percent (notify_process is_statistics e now st).1 = battery_percent st := by
  unfold notify_process
  split_ifs with hs
  · simp [battery_percent]
  · rw [handle_event_percent]
    simp [battery_percent]

/-- The effect of processing a notification depends only on the event code
and the last known battery percentage, not on the arrival time. -/
theorem notify_process_effect_congr (is_statistics : Bool) (e : Nat) (n1 n2 : ℚ)
    (st st2 : NotifyState) (h : battery_percent st = battery_percent st2) :
    (notify_process is_statistics e n1 st).2 = (notify_process is_statistics e n2 st2).2 := by
  unfold notify_process
  split_ifs with hs
  · rfl
  · apply handle_event_effect_congr
    simpa [battery_percent] using h

/-- Claim C3: after a push notification with some event code is processed at
(positive wall-clock) time `t1`, a second notification with the same code
arriving at `t2` with `t2 - t1 < 5` is ignored entirely — the state is
unchanged and the effect is empty (no queued attribute, no optimistic battery
update, no callbacks); with `5 ≤ t2 - t1` it is processed (its time is
recorded) and its side effect equals the first one's exactly. -/
theorem notify_debounce (is_statistics : Bool) (event_id : Nat) (t1 t2 : ℚ)
    (st0 : NotifyState) (h0 : st0.latest_events event_id = Option.none)
    (ht1 : 0 < t1) :
    (t2 - t1 < 5 →
      notify_callback is_statistics event_id t2
          (notify_callback is_statistics event_id t1 st0).1 =
        ((notify_callback is_statistics event_id t1 st0).1, NotifyEffect.none)) ∧
    (5 ≤ t2 - t1 →
      (notify_callback is_statistics event_id t2
          (notify_callback is_statistics event_id t1 st0).1).1.latest_events event_id =
        some t2 ∧
      (notify_callback is_statistics event_id t2
          (notify_callback is_statistics event_id t1 st0).1).2 =
        (notify_callback is_statistics event_id t1 st0).2) := by
  have hfirst : notify_callback is_statistics event_id t1 st0 =
      notify_process is_statistics event_id t1 st0 := by
    unfold notify_callback
    rw [h0]
  have hlatest1 : (notify_callback is_statistics event_id t1 st0).1.latest_events event_id =
      some t1 := by
    rw [hfirst, notify_process_latest]
    simp
  have hcall_some : ∀ (st : NotifyState) (t lt : ℚ), st.latest_events event_id = some lt →
      notify_callback is_statistics event_id t st =
        (if lt ≠ 0 ∧ t - lt < 5 then (st, NotifyEffect.none)
         else notify_process is_statistics event_id t st) := by
    intro st t lt hl
    unfold notify_callback
    rw [hl]
  constructor
  · intro hlt
    rw [hcall_some _ t2 t1 hlatest1]
    rw [if_pos ⟨ne_of_gt ht1, hlt⟩]
  · intro hge
    have hnotdeb : ¬ (t1 ≠ 0 ∧ t2 - t1 < 5) := by
      rintro ⟨-, hlt⟩
      exact absurd hge (not_le.mpr hlt)
    have hsecond : notify_callback is_statistics event_id t2
        (notify_callback is_statistics event_id t1 st0).1 =
        notify_process is_statistics event_id t2
          (notify_callback is_statistics event_id t1 st0).1 := by
      rw [hcall_some _ t2 t1 hlatest1, if_neg hnotdeb]
    constructor
    · rw [hsecond, notify_process_latest]
      simp
    · rw [hsecond, hfirst]
      apply notify_process_effect_congr
      exact notify_process_percent is_statistics event_id t1 st0

/-- Claim C3, witness: target-temperature events (code 4) at times 10 and 12
on a fresh notification state. -/
theorem notify_debounce_witness :
    ((12 : ℚ) - 10 < 5 →
      notify_callback false 4 12
          (notify_callback false 4 10 ⟨fun _ => Option.none, [], Option.none⟩).1 =
        ((notify_callback false 4 10 ⟨fun _ => Option.none, [], Option.none⟩).1,
          NotifyEffect.none)) ∧
    (5 ≤ (12 : ℚ) - 10 →
      (notify_callback false 4 12
          (notify_callback false 4 10 ⟨fun _ => Option.none, [], Option.none⟩).1).1.latest_events
          4 = some 12 ∧
      (notify_callback false 4 12
          (notify_callback false 4 10 ⟨fun _ => Option.none, [], Option.none⟩).1).2 =
        (notify_callback false 4 10 ⟨fun _ => Option.none, [], Option.none⟩).2) :=
  notify_debounce false 4 10 12 ⟨fun _ => Option.none, [], Option.none⟩ rfl (by norm_num)

/-- Claim C4: a getter/setter guarded by `require_attribute` for an attribute
absent from the device's capability set returns the capability error naming
the device-type classification, with the transport call counter unchanged —
for any wrapped transport action whatsoever, so no transport call occurs. -/
theorem require_attribute_missing_raises_before_transport {α : Type}
    (attr_name : String) (info : ModelInfo)
    (func : Nat → Except String α × Nat) (transport_calls : Nat)
    (h : attr_name ∉ info.device_attributes) :
    require_attribute attr_name info func transport_calls =
      (.error ("The " ++ info.device_type.value ++ " does not have the " ++ attr_name
          ++ " attribute"),
       transport_calls) := by
  unfold require_attribute
  rw [if_pos h]

/-- Claim C4, witness: requesting the name attribute on a cup capability set
raises the capability error naming "cup" and the transport call count stays
zero. -/
theorem require_attribute_missing_raises_before_transport_witness :
    get_name ⟨some DeviceModel.CUP_6_OZ, Option.none⟩ [65] 0 =
      (.error "The cup does not have the name attribute", 0) := by
  exact require_attribute_missing_raises_before_transport "name"
    ⟨some DeviceModel.CUP_6_OZ, Option.none⟩ (fun calls => (.ok [65], calls + 1)) 0
    (by decide)

/-- Claim C5: a transport error while reading the udsk attribute is caught and
`get_udsk` returns `None`; one while reading dsk is caught and `get_dsk`
returns `""`; whereas `_write` propagates every transport error unchanged. -/
theorem best_effort_reads_swallow_write_propagates (e : String) :
    get_udsk (.error e) = Option.none ∧
    get_dsk (.error e) = "" ∧
    write_gatt (.error e) = .error e :=
  ⟨rfl, rfl, rfl⟩

/-- Claim C7, counterexample: the target temperature 0 is outside the metric
range 49–63 yet `set_target_temp` does not raise — it proceeds to encode and
write the bytes `[0, 0]`. -/
theorem set_target_temp_zero_counterexample :
    set_target_temp true TemperatureUnit.CELSIUS 0 = .ok [0, 0] ∧
    ¬ ((49 : ℚ) ≤ 0 ∧ (0 : ℚ) ≤ 63) := by
  constructor
  · unfold set_target_temp
    rw [if_neg (by simp)]
    have h1 : convert_to_device_unit true TemperatureUnit.CELSIUS 0 = 0 := by
      simp [convert_to_device_unit]
    rw [h1]
    have h2 : pyRound (0 : ℚ) = 0 := by
      have := pyRound_intCast 0
      simpa using this
    simp [temp_to_bytes, to_bytes2_little, h2]
  · norm_num

/-- Claim C7, amended: for every *nonzero* target temperature outside the
allowed range for the current display unit (49–63 °C when metric, 120–145 °F
when imperial; 0 is the explicit "turn off" escape value), `set_target_temp`
raises the validation error synchronously, before any conversion, encoding or
transport write. -/
theorem set_target_temp_out_of_range_raises (use_metric : Bool)
    (temperature_unit : TemperatureUnit) (target_temp : ℚ)
    (hnz : target_temp ≠ 0)
    (hout : ¬ ((MIN_MAX_TEMPS (if use_metric then .CELSIUS else .FAHRENHEIT)).1 ≤ target_temp ∧
        target_temp ≤ (MIN_MAX_TEMPS (if use_metric then .CELSIUS else .FAHRENHEIT)).2)) :
    set_target_temp use_metric temperature_unit target_temp =
      .error ("Temperature should be between "
        ++ toString (MIN_MAX_TEMPS (if use_metric then .CELSIUS else .FAHRENHEIT)).1
        ++ " and "
        ++ toString (MIN_MAX_TEMPS (if use_metric then .CELSIUS else .FAHRENHEIT)).2
        ++ " or 0.") := by
  unfold set_target_temp
  rw [if_pos ⟨hnz, hout⟩]

/-- Claim C7, witness: 100 °C is nonzero and outside 49–63, and
`set_target_temp` raises the validation error. -/
theorem set_target_temp_out_of_range_raises_witness :
    set_target_temp true TemperatureUnit.CELSIUS 100 =
      .error "Temperature should be between 49 and 63 or 0." := by
  exact set_target_temp_out_of_range_raises true TemperatureUnit.CELSIUS 100
    (by norm_num) (by norm_num [MIN_MAX_TEMPS])

/-- Claim C6: every wire-representable temperature (two little-endian bytes
counting hundredths of a degree) round-trips exactly through decode
(multiply by 0.01) and encode (divide by 0.01, round to nearest); in
particular the bytes 0xCD 0x15 decode to 55.81 and encoding 55.81 yields
0xCD 0x15.  Python float arithmetic is modelled by exact rationals. -/
theorem temp_codec_roundtrip (b0 b1 : ℕ) (h0 : b0 < 256) (h1 : b1 < 256) :
    temp_to_bytes (temp_from_bytes [b0, b1]) = some [b0, b1] ∧
    temp_from_bytes [0xCD, 0x15] = 55.81 ∧
    temp_to_bytes 55.81 = some [0xCD, 0x15] := by
  have main : ∀ c0 c1 : ℕ, c0 < 256 → c1 < 256 →
      temp_to_bytes (temp_from_bytes [c0, c1]) = some [c0, c1] := by
    intro c0 c1 hc0 hc1
    have hn : bytes_to_little_int [c0, c1] = c0 + 256 * c1 := by
      simp [bytes_to_little_int]
    have hdiv : temp_from_bytes [c0, c1] / 0.01 = ((c0 + 256 * c1 : ℕ) : ℚ) := by
      rw [temp_from_bytes, hn]
      norm_num
    rw [temp_to_bytes, hdiv, pyRound_natCast]
    rw [to_bytes2_little]
    have hle : (0 : ℤ) ≤ ((c0 + 256 * c1 : ℕ) : ℤ) := by positivity
    have hlt : ((c0 + 256 * c1 : ℕ) : ℤ) < 65536 := by push_cast; omega
    rw [if_pos ⟨hle, hlt⟩]
    have hN : ((c0 + 256 * c1 : ℕ) : ℤ).toNat = c0 + 256 * c1 := by omega
    rw [hN]
    have e0 : (c0 + 256 * c1) % 256 = c0 := by omega
    have e1 : (c0 + 256 * c1) / 256 % 256 = c1 := by omega
    rw [e0, e1]
  have hdec : temp_from_bytes [0xCD, 0x15] = 55.81 := by
    rw [temp_from_bytes]
    norm_num [bytes_to_little_int]
  refine ⟨main b0 b1 h0 h1, hdec, ?_⟩
  rw [← hdec]
  exact main 0xCD 0x15 (by norm_num) (by norm_num)

/-- Claim C6, witness: the round trip at the concrete bytes 0xCD 0x15. -/
theorem temp_codec_roundtrip_witness :
    temp_to_bytes (temp_from_bytes [205, 21]) = some [205, 21] :=
  (temp_codec_roundtrip 205 21 (by norm_num) (by norm_num)).1

/-- Claim C8: re-registering an already-registered callback is a no-op that
returns the identical existing unregister handle without creating a duplicate
entry (keys of the dict stay duplicate-free with exactly one entry for the
callback); invoking the unregister handle removes the callback so that
`_fire_callbacks` no longer invokes it, and invoking it again is a harmless
no-op. -/
theorem callback_registration_idempotent {κ : Type} [DecidableEq κ]
    (reg : CallbackRegistry κ) (cb : κ)
    (hnd : (reg.entries.map Prod.fst).Nodup) :
    (register_callback (register_callback reg cb).1 cb).1 = (register_callback reg cb).1 ∧
    (register_callback (register_callback reg cb).1 cb).2 = (register_callback reg cb).2 ∧
    ((register_callback reg cb).1.entries.map Prod.fst).count cb = 1 ∧
    cb ∉ fire_callbacks (run_unregister (register_callback reg cb).1 cb) ∧
    run_unregister (run_unregister (register_callback reg cb).1 cb) cb =
      run_unregister (register_callback reg cb).1 cb := by
  have hreg_some : ∀ (r : CallbackRegistry κ) (hh : ℕ), r.lookupHandle cb = some hh →
      register_callback r cb = (r, hh) := by
    intro r hh hl
    unfold register_callback
    rw [hl]
  have hreg_none : ∀ (r : CallbackRegistry κ), r.lookupHandle cb = none →
      register_callback r cb =
        ({ entries := r.entries ++ [(cb, r.next_handle)], next_handle := r.next_handle + 1 },
         r.next_handle) := by
    intro r hl
    unfold register_callback
    rw [hl]
  have hfilter_not_mem : ∀ (r : CallbackRegistry κ),
      cb ∉ fire_callbacks (run_unregister r cb) := by
    intro r
    unfold run_unregister fire_callbacks
    by_cases hs : (r.entries.find? (fun p => p.1 = cb)).isSome
    · rw [if_pos hs]
      intro hmem
      obtain ⟨p, hp, hpe⟩ := List.mem_map.mp hmem
      have := List.mem_filter.mp hp
      simp [hpe] at this
    · rw [if_neg hs]
      intro hmem
      obtain ⟨p, hp, hpe⟩ := List.mem_map.mp hmem
      rw [Option.not_isSome_iff_eq_none, List.find?_eq_none] at hs
      have := hs p hp
      simp [hpe] at this
  have hnoop : ∀ (r : CallbackRegistry κ),
      r.entries.find? (fun p => p.1 = cb) = none → run_unregister r cb = r := by
    intro r hn
    unfold run_unregister
    rw [hn]
    simp
  have hidem : ∀ (r : CallbackRegistry κ),
      run_unregister (run_unregister r cb) cb = run_unregister r cb := by
    intro r
    apply hnoop
    rw [List.find?_eq_none]
    intro p hp hpcb
    exact hfilter_not_mem r
      (List.mem_map.mpr ⟨p, hp, by simpa using hpcb⟩)
  rcases hlook : reg.lookupHandle cb with _ | h
  · have hfind : reg.entries.find? (fun p => p.1 = cb) = none := by
      unfold CallbackRegistry.lookupHandle at hlook
      exact Option.map_eq_none.mp hlook
    have hreg1 := hreg_none reg hlook
    have hlook1 : (register_callback reg cb).1.lookupHandle cb =
        some (register_callback reg cb).2 := by
      rw [hreg1]
      unfold CallbackRegistry.lookupHandle
      simp only []
      rw [List.find?_append, hfind]
      simp
    have hsecond := hreg_some (register_callback reg cb).1 (register_callback reg cb).2 hlook1
    have hcb_not_mem : cb ∉ reg.entries.map Prod.fst := by
      intro hmem
      obtain ⟨p, hp, hpe⟩ := List.mem_map.mp hmem
      rw [List.find?_eq_none] at hfind
      have := hfind p hp
      simp [hpe] at this
    have hcount : ((register_callback reg cb).1.entries.map Prod.fst).count cb = 1 := by
      rw [hreg1]
      simp only [List.map_append, List.count_append]
      rw [List.count_eq_zero_of_not_mem hcb_not_mem]
      simp
    exact ⟨by rw [hsecond], by rw [hsecond], hcount, hfilter_not_mem _, hidem _⟩
  · have hreg1 := hreg_some reg h hlook
    have hcount : (reg.entries.map Prod.fst).count cb = 1 := by
      apply List.count_eq_one_of_mem hnd
      unfold CallbackRegistry.lookupHandle at hlook
      obtain ⟨p, hp, hpe⟩ := Option.map_eq_some.mp hlook
      have hpmem := List.mem_of_find?_eq_some hp
      have hpcb : p.1 = cb := by
        have := List.find?_some hp
        simpa using this
      exact List.mem_map.mpr ⟨p, hpmem, hpcb⟩
    have hsecond := hreg_some (register_callback reg cb).1 h (by rw [hreg1]; exact hlook)
    refine ⟨?_, ?_, ?_, hfilter_not_mem _, hidem _⟩
    · rw [hsecond, hreg1]
    · rw [hsecond, hreg1]
    · rw [hreg1]
      exact hcount

/-- Claim C8, witness: registering callback 7 twice on the empty registry. -/
theorem callback_registration_idempotent_witness :
    (register_callback (register_callback (⟨[], 0⟩ : CallbackRegistry ℕ) 7).1 7).1 =
      (register_callback (⟨[], 0⟩ : CallbackRegistry ℕ) 7).1 ∧
    (register_callback (register_callback (⟨[], 0⟩ : CallbackRegistry ℕ) 7).1 7).2 =
      (register_callback (⟨[], 0⟩ : CallbackRegistry ℕ) 7).2 ∧
    ((register_callback (⟨[], 0⟩ : CallbackRegistry ℕ) 7).1.entries.map Prod.fst).count 7 = 1 ∧
    7 ∉ fire_callbacks (run_unregister (register_callback (⟨[], 0⟩ : CallbackRegistry ℕ) 7).1 7) ∧
    run_unregister (run_unregister (register_callback (⟨[], 0⟩ : CallbackRegistry ℕ) 7).1 7) 7 =
      run_unregister (register_callback (⟨[], 0⟩ : CallbackRegistry ℕ) 7).1 7 :=
  callback_registration_idempotent ⟨[], 0⟩ 7 (by decide)

/-- Claim C9: a manufacturer payload of the single byte 0x81 (signed value
-127) with no travel-mug service UUID resolves to the second-generation
standard 10 oz model and the black colour. -/
theorem advert_single_byte_resolves_mug2_10oz_black :
    bytes_to_big_int [0x81] true = -127 ∧
    get_model_info_from_advertiser_data ⟨[(EMBER_BLE_SIG, [0x81])], [], Option.none⟩ =
      ⟨some DeviceModel.MUG_2_10_OZ, some DeviceColour.BLACK⟩ := by
  exact ⟨by decide, by decide⟩

/-- Claim C10: calling `update_queued_attributes` with an empty pending-update
queue returns the empty change list and has no effect: the state (queue and
MugData slots) is returned unchanged, no connection is established, no
attribute is read, and no callback fires. -/
theorem update_queued_attributes_empty_noop {V : Type} [DecidableEq V]
    (read_value : String → V) (st : EngineState V)
    (h : st.queued_updates = []) :
    update_queued_attributes read_value st = ([], st, ⟨false, [], false⟩) := by
  unfold update_queued_attributes
  rw [if_pos h]

/-- Claim C10, witness: the empty-queue no-op at a concrete engine state. -/
theorem update_queued_attributes_empty_noop_witness :
    update_queued_attributes (fun _ => (0 : ℕ)) ⟨[], fun _ => 0⟩ =
      ([], ⟨[], fun _ => 0⟩, ⟨false, [], false⟩) :=
  update_queued_attributes_empty_noop (fun _ => (0 : ℕ)) ⟨[], fun _ => 0⟩ rfl

end EmberMugSpec
